import Mathlib

/-!
Shallow embedding of the core of `src/app.py` (OXX-IOT-SYSTEM-MONITORING):
the fan controller (`control_fan`), the bounded temperature history
(`temp_history`, a `deque` with `maxlen`), the running statistics updated
by `log_temperature`, the alert dispatcher (`check_and_send_alerts` with
the channels `send_email_alert` / `send_telegram_alert`), the voice
command router (`process_voice_command`), the configuration route
(`configuration`), the temperature source (`get_cpu_temp`) and the
statistics reset (`reset_stats`).

Temperatures and thresholds are modelled as rationals, timestamps as
integers counting seconds.  Python dictionary entries that can be absent
(a read then raises `KeyError`) are modelled as `Option` fields.
External effects (the GPIO driver, SendGrid, the Telegram HTTP call, the
remote probe) are modelled by passing their outcome as an explicit
argument, exactly at the point where the source consults them.
-/

namespace OxxMonitor

/-! ### Fan controller: `control_fan` (src/app.py lines 571-605) -/

/-- State of the fan actuator together with the `fan_cycles` counter of
`system_stats`; `active` is `fan.is_active`. -/
structure FanState where
  active : Bool
  cycles : Nat
deriving DecidableEq, Repr

/-- Function `control_fan(temp)`, src/app.py lines 571-605.  The three branches
`temp > TEMP_CRITICAL` / `temp > TEMP_THRESHOLD_HIGH` / `temp > TEMP_THRESHOLD`
each turn the fan on (incrementing `fan_cycles` only when it was off),
and the final `else` turns it off.  When the GPIO driver is unavailable
the function returns without touching anything. -/
def control_fan (gpio_available : Bool) (TEMP_THRESHOLD TEMP_THRESHOLD_HIGH TEMP_CRITICAL : ℚ)
    (s : FanState) (temp : ℚ) : FanState :=
  if gpio_available = false then s
  else if TEMP_CRITICAL < temp then
    if s.active then s else ⟨true, s.cycles + 1⟩
  else if TEMP_THRESHOLD_HIGH < temp then
    if s.active then s else ⟨true, s.cycles + 1⟩
  else if TEMP_THRESHOLD < temp then
    if s.active then s else ⟨true, s.cycles + 1⟩
  else
    if s.active then ⟨false, s.cycles⟩ else s

/-- Specification-side count of OFF→ON edges of the on/off signal
`temp > TEMP_THRESHOLD`, starting from a given previous on/off state. -/
def off_on_edges (TEMP_THRESHOLD : ℚ) : Bool → List ℚ → Nat
  | _, [] => 0
  | prev, t :: ts =>
      (if prev = false ∧ TEMP_THRESHOLD < t then 1 else 0) +
        off_on_edges TEMP_THRESHOLD (decide (TEMP_THRESHOLD < t)) ts

/-! ### History store: `temp_history` (src/app.py line 84) and the
append in `log_temperature` (lines 529-546) -/

/-- One history reading as appended by `log_temperature`. -/
structure Reading where
  timestamp : ℤ
  temperature : ℚ
  fan_active : Bool
deriving DecidableEq, Repr

/-- The `maxlen` passed to the deque at src/app.py line 84:
`int(data_retention_hours * 3600 / log_interval)` — Python `int()` on a
nonnegative float truncates (floor). -/
def temp_history_capacity (data_retention_hours log_interval : ℕ) : ℕ :=
  (⌊(data_retention_hours * 3600 : ℚ) / log_interval⌋).toNat

/-- Capacity as the specification words it: the quotient rounded to the
nearest integer, with a minimum of 1. -/
def spec_capacity (data_retention_hours log_interval : ℕ) : ℕ :=
  max 1 (round ((data_retention_hours * 3600 : ℚ) / log_interval)).toNat

/-- Python `deque.append` with `maxlen`: the new element goes at the right and,
if the deque is full, the leftmost (oldest) element is discarded. -/
def deque_append {α : Type} (maxlen : ℕ) (xs : List α) (x : α) : List α :=
  let ys := xs ++ [x]
  ys.drop (ys.length - maxlen)

/-! ### Running extrema: `system_stats` (src/app.py lines 85-94) updated
by `log_temperature` (lines 536-539) -/

/-- The `max_temp` / `min_temp` update of `log_temperature`
(src/app.py lines 536-539): `if temp > max_temp: ...; if temp < min_temp: ...`. -/
def update_extrema (p : ℚ × ℚ) (temp : ℚ) : ℚ × ℚ :=
  ((if p.1 < temp then temp else p.1), (if temp < p.2 then temp else p.2))

/-- The initial values at src/app.py lines 88-89: `max_temp: 0, min_temp: 100`. -/
def initial_extrema : ℚ × ℚ := (0, 100)

/-! ### Statistics map: `system_stats` (src/app.py lines 85-94),
`reset_stats` (lines 1644-1655) -/

/-- The `system_stats` dictionary.  The three fields that `reset_stats`
drops are `Option`s: `none` models an absent key (a read raises
`KeyError`); `last_alert` additionally distinguishes a present `None`
value (`some none`) from an absent key (`none`). -/
structure Stats where
  uptime_start : ℤ
  fan_cycles : ℕ
  max_temp : ℚ
  min_temp : ℚ
  alerts_triggered : ℕ
  last_alert : Option (Option ℤ)
  email_alerts_sent : Option ℕ
  telegram_alerts_sent : Option ℕ
deriving DecidableEq, Repr

/-- The `system_stats` dictionary as initialised at module load (src/app.py lines 85-94). -/
def initial_stats (now : ℤ) : Stats :=
  ⟨now, 0, 0, 100, 0, some none, some 0, some 0⟩

/-- Function `reset_stats` (src/app.py lines 1644-1655): the dictionary is
replaced by one holding only `uptime_start`, `fan_cycles`, `max_temp`,
`min_temp` and `alerts_triggered`. -/
def reset_stats (now : ℤ) : Stats :=
  ⟨now, 0, 0, 100, 0, none, none, none⟩

/-! ### Notification channels: `send_email_alert` (src/app.py lines
242-268) and `send_telegram_alert` (lines 270-299) -/

/-- Outcomes of everything the two channel functions consult outside the
statistics map: configuration flags, credential presence, and the result
of the outbound call itself. -/
structure ChannelEnv where
  email_alerts : Bool
  email_to_set : Bool
  email_send_ok : Bool
  telegram_alerts : Bool
  telegram_tokens_set : Bool
  telegram_post : Option ℕ
deriving DecidableEq, Repr

/-- Function `send_email_alert` (src/app.py lines 242-268).  Disabled or
unconfigured → `False`; an exception from `sg.send` is caught by the
enclosing `try` → `False`; after a successful send the counter increment
`system_stats["email_alerts_sent"] += 1` raises `KeyError` if the key is
absent, also caught → `False`; otherwise the counter is bumped and the
call returns `True`. -/
def send_email_alert (env : ChannelEnv) (stats : Stats) : Stats × Bool :=
  if (env.email_alerts && env.email_to_set) = false then (stats, false)
  else if env.email_send_ok = false then (stats, false)
  else
    match stats.email_alerts_sent with
    | none => (stats, false)
    | some k => ({ stats with email_alerts_sent := some (k + 1) }, true)

/-- Function `send_telegram_alert` (src/app.py lines 270-299).  Disabled →
`False`; missing bot token or chat id → `False`; an exception from
`requests.post` is caught → `False`; a non-200 status → `False`; on a
200 status the increment of `telegram_alerts_sent` raises `KeyError` if
the key is absent, caught → `False`; otherwise `True`. -/
def send_telegram_alert (env : ChannelEnv) (stats : Stats) : Stats × Bool :=
  if env.telegram_alerts = false then (stats, false)
  else if env.telegram_tokens_set = false then (stats, false)
  else
    match env.telegram_post with
    | none => (stats, false)
    | some status =>
        if status = 200 then
          match stats.telegram_alerts_sent with
          | none => (stats, false)
          | some k => ({ stats with telegram_alerts_sent := some (k + 1) }, true)
        else (stats, false)

/-! ### Alert dispatcher: `check_and_send_alerts` (src/app.py lines 316-359) -/

/-- Alert severity levels, the `alert_type` strings of the source. -/
inductive Level
  | high
  | critical
deriving DecidableEq, Repr

/-- The per-level `cooldown_minutes` (src/app.py lines 326 and 331). -/
def Level.cooldown_minutes : Level → ℕ
  | .critical => 5
  | .high => 15

/-- The `alert_cooldown` dictionary (src/app.py line 97), keys
`"high"` / `"critical"`; `none` models an absent key. -/
structure Cooldown where
  high : Option ℤ
  critical : Option ℤ
deriving DecidableEq, Repr

def Cooldown.get : Cooldown → Level → Option ℤ
  | cd, .high => cd.high
  | cd, .critical => cd.critical

def Cooldown.set : Cooldown → Level → ℤ → Cooldown
  | cd, .high, t => { cd with high := some t }
  | cd, .critical, t => { cd with critical := some t }

/-- The severity classification of `check_and_send_alerts`
(src/app.py lines 322-333): `temp > TEMP_CRITICAL` → critical, else
`temp > TEMP_THRESHOLD_HIGH` → high, else no alert. -/
def classify (TEMP_THRESHOLD_HIGH TEMP_CRITICAL : ℚ) (temp : ℚ) : Option Level :=
  if TEMP_CRITICAL < temp then some .critical
  else if TEMP_THRESHOLD_HIGH < temp then some .high
  else none

/-- Everything `check_and_send_alerts` decides and mutates: whether the
send block ran (`attempted`), its return value (`alert_sent`), the
cooldown map, the statistics, the recorded per-channel outcomes, and
whether an ALERT entry was appended to `LOG_BUFFER`. -/
structure AlertOutcome where
  attempted : Option Level
  alert_sent : Bool
  cooldown : Cooldown
  stats : Stats
  email_sent : Bool
  telegram_sent : Bool
  alert_logged : Bool
deriving DecidableEq, Repr

/-- The send-and-record block of `check_and_send_alerts`
(src/app.py lines 340-359): both channels are invoked, then cooldown,
`alerts_triggered`, `last_alert` and the ALERT log entry are updated
only if `email_sent or telegram_sent`. -/
def dispatch_alert (now : ℤ) (lvl : Level) (env : ChannelEnv) (cd : Cooldown)
    (stats : Stats) : AlertOutcome :=
  let es := send_email_alert env stats
  let tg := send_telegram_alert env es.1
  if es.2 || tg.2 then
    ⟨some lvl, true, cd.set lvl now,
      { tg.1 with alerts_triggered := tg.1.alerts_triggered + 1,
                  last_alert := some (some now) },
      es.2, tg.2, true⟩
  else ⟨some lvl, false, cd, tg.1, es.2, tg.2, false⟩

/-- Function `check_and_send_alerts(temp)` (src/app.py lines 316-359). -/
def check_and_send_alerts (TEMP_THRESHOLD_HIGH TEMP_CRITICAL : ℚ) (now : ℤ)
    (temp : ℚ) (env : ChannelEnv) (cd : Cooldown) (stats : Stats) : AlertOutcome :=
  match classify TEMP_THRESHOLD_HIGH TEMP_CRITICAL temp with
  | none => ⟨none, false, cd, stats, false, false, false⟩
  | some lvl =>
      match cd.get lvl with
      | some last =>
          if now - last < (lvl.cooldown_minutes : ℤ) * 60 then
            ⟨none, false, cd, stats, false, false, false⟩
          else dispatch_alert now lvl env cd stats
      | none => dispatch_alert now lvl env cd stats

/-- Specification-side cooldown condition: no recorded dispatch of the
level, or at least the level's cooldown window has passed since it. -/
def cooldown_elapsed (cd : Cooldown) (lvl : Level) (now : ℤ) : Prop :=
  ∀ last, cd.get lvl = some last → (lvl.cooldown_minutes : ℤ) * 60 ≤ now - last

/-! ### Configuration route: `configuration` (src/app.py lines 1200-1252) -/

/-- The configuration dictionary (src/app.py lines 32-52 and 1209-1229). -/
structure Config where
  fan_pin : ℤ
  temp_threshold : ℚ
  temp_threshold_high : ℚ
  temp_critical : ℚ
  data_retention_hours : ℤ
  log_interval : ℤ
  auto_refresh : ℤ
  theme : String
  email_alerts : Bool
  telegram_alerts : Bool
  mqtt_enabled : Bool
  mqtt_broker : String
  mqtt_port : ℤ
  mqtt_topic : String
  email_from : String
  email_to : String
  remote_pi_ip : String
  remote_pi_port : ℤ
  use_remote_pi : Bool
deriving DecidableEq, Repr

/-- The `DEFAULT_CONFIG` dictionary (src/app.py lines 32-52). -/
def DEFAULT_CONFIG : Config :=
  { fan_pin := 14
    temp_threshold := 60
    temp_threshold_high := 70
    temp_critical := 80
    data_retention_hours := 24
    log_interval := 30
    auto_refresh := 5
    theme := "dark"
    email_alerts := true
    telegram_alerts := true
    mqtt_enabled := false
    mqtt_broker := "localhost"
    mqtt_port := 1883
    mqtt_topic := "raspberrypi/temperature"
    email_from := "alerts@raspberrypi.local"
    email_to := ""
    remote_pi_ip := "192.168.205.83"
    remote_pi_port := 5001
    use_remote_pi := true }

/-- A numeric form field as the route reads it:
`int(request.form.get(key, config[key]))` — absent falls back to the
current configuration value, a non-numeric string makes `int()`/`float()`
raise `ValueError`, a numeric string parses. -/
inductive FormVal (α : Type)
  | absent
  | invalid
  | val (a : α)
deriving DecidableEq, Repr

/-- Resolve one form field against the current value; `none` is the
`ValueError` that aborts the whole `new_config` construction. -/
def FormVal.resolve {α : Type} (cur : α) : FormVal α → Option α
  | .absent => some cur
  | .invalid => none
  | .val a => some a

/-- The POST body of the configuration form.  Checkbox fields are read
with `request.form.get(k) == "on"` and can never raise; plain string
fields fall back to the current value when absent. -/
structure Form where
  fan_pin : FormVal ℤ
  temp_threshold : FormVal ℚ
  temp_threshold_high : FormVal ℚ
  temp_critical : FormVal ℚ
  data_retention_hours : FormVal ℤ
  log_interval : FormVal ℤ
  auto_refresh : FormVal ℤ
  theme : Option String
  email_alerts : Bool
  telegram_alerts : Bool
  mqtt_enabled : Bool
  mqtt_broker : Option String
  mqtt_port : FormVal ℤ
  mqtt_topic : Option String
  email_from : Option String
  email_to : Option String
  remote_pi_ip : Option String
  remote_pi_port : FormVal ℤ
  use_remote_pi : Bool
deriving DecidableEq, Repr

/-- A form that submits nothing: every field falls back to the current
configuration (checkboxes read as off). -/
def empty_form : Form :=
  ⟨.absent, .absent, .absent, .absent, .absent, .absent, .absent, none,
    false, false, false, none, .absent, none, none, none, none, .absent, false⟩

/-- The `new_config` dictionary construction (src/app.py lines
1209-1229); `none` models the `ValueError` of a failed `int()`/`float()`
caught at lines 1249-1250. -/
def build_new_config (c : Config) (f : Form) : Option Config := do
  let fan_pin ← f.fan_pin.resolve c.fan_pin
  let temp_threshold ← f.temp_threshold.resolve c.temp_threshold
  let temp_threshold_high ← f.temp_threshold_high.resolve c.temp_threshold_high
  let temp_critical ← f.temp_critical.resolve c.temp_critical
  let data_retention_hours ← f.data_retention_hours.resolve c.data_retention_hours
  let log_interval ← f.log_interval.resolve c.log_interval
  let auto_refresh ← f.auto_refresh.resolve c.auto_refresh
  let mqtt_port ← f.mqtt_port.resolve c.mqtt_port
  let remote_pi_port ← f.remote_pi_port.resolve c.remote_pi_port
  pure
    { fan_pin := fan_pin
      temp_threshold := temp_threshold
      temp_threshold_high := temp_threshold_high
      temp_critical := temp_critical
      data_retention_hours := data_retention_hours
      log_interval := log_interval
      auto_refresh := auto_refresh
      theme := f.theme.getD c.theme
      email_alerts := f.email_alerts
      telegram_alerts := f.telegram_alerts
      mqtt_enabled := f.mqtt_enabled
      mqtt_broker := f.mqtt_broker.getD c.mqtt_broker
      mqtt_port := mqtt_port
      mqtt_topic := f.mqtt_topic.getD c.mqtt_topic
      email_from := f.email_from.getD c.email_from
      email_to := f.email_to.getD c.email_to
      remote_pi_ip := f.remote_pi_ip.getD c.remote_pi_ip
      remote_pi_port := remote_pi_port
      use_remote_pi := f.use_remote_pi }

/-- The POST branch of the `configuration` route (src/app.py lines
1206-1252): build `new_config`, validate thresholds and GPIO pin, save
and apply, or reject leaving the prior configuration in place.
`save_ok` is the outcome of `save_config`. -/
def configuration (c : Config) (f : Form) (save_ok : Bool) : Config × String :=
  match build_new_config c f with
  | none => (c, "Error: Invalid input values")
  | some nc =>
      if nc.temp_threshold_high ≤ nc.temp_threshold then
        (c, "Error: High threshold must be greater than normal threshold")
      else if nc.temp_critical ≤ nc.temp_threshold_high then
        (c, "Error: Critical threshold must be greater than high threshold")
      else if nc.fan_pin < 1 ∨ 40 < nc.fan_pin then
        (c, "Error: GPIO pin must be between 1 and 40")
      else if save_ok then
        (nc, "Configuration saved successfully! Restart required for GPIO pin changes.")
      else (c, "Error: Failed to save configuration")

/-- A form that only moves the normal threshold up to 75 (above the
default high threshold 70). -/
def bad_threshold_form : Form :=
  { empty_form with
      temp_threshold := .val 75
      email_alerts := true
      telegram_alerts := true
      use_remote_pi := true }

/-! ### C6: configuration changes and the history store.  The deque at
src/app.py line 84 is created once at module load; the `configuration`
route (lines 1200-1252) reassigns `config` and the threshold globals but
never touches `temp_history` or its `maxlen`. -/

/-- The module-level mutable state the configuration route can reach:
the configuration dictionary, plus the history deque and the `maxlen` it
was created with at line 84. -/
structure AppState where
  config : Config
  history_maxlen : ℕ
  temp_history : List Reading
deriving DecidableEq, Repr

/-- The configuration POST as it acts on the module state: only
`config` (and the threshold globals derived from it) are reassigned;
lines 1200-1252 contain no reference to `temp_history`. -/
def configuration_post (st : AppState) (f : Form) (save_ok : Bool) :
    AppState × String :=
  ((⟨(configuration st.config f save_ok).1, st.history_maxlen, st.temp_history⟩ : AppState),
    (configuration st.config f save_ok).2)

/-- Ten readings sitting in the history store. -/
def ten_readings : List Reading :=
  (List.range 10).map (fun k => ⟨(k : ℤ), 40, false⟩)

/-- A form that changes the retention so that the capacity formula gives
5 (1 hour at a 720-second interval) while keeping thresholds valid. -/
def resize_form : Form :=
  { empty_form with
      data_retention_hours := .val 1
      log_interval := .val 720
      email_alerts := true
      telegram_alerts := true
      use_remote_pi := true }

/-! ### Temperature source: `get_cpu_temp` (src/app.py lines 154-188) -/

/-- Outcome of reading and parsing the local `vcgencmd measure_temp`
output: no usable output (empty line or no `temp=` marker), a line that
makes `float(...)` raise `ValueError` (caught by the outer `try`), or a
parsed reading. -/
inductive LocalProbe
  | no_output
  | parse_error
  | reading (t : ℚ)
deriving DecidableEq, Repr

/-- Outcome of the remote-Pi HTTP query: an exception from
`requests.get`/`response.json()` (caught by the inner `except`), or a
decoded response with its status code and its optional `temperature`
field (`data.get('temperature', 0)` defaults a missing key to 0). -/
inductive RemoteOutcome
  | error
  | response (status : ℕ) (temperature : Option ℚ)
deriving DecidableEq, Repr

/-- Function `get_cpu_temp()` (src/app.py lines 154-188).  `jitter` is the outcome
of `random.uniform(-10, 25)`; the synthetic fallback is `45 + jitter`.
The function is total: every exception path inside it is caught. -/
def get_cpu_temp (probe : LocalProbe) (use_remote_pi : Bool)
    (remote : RemoteOutcome) (jitter : ℚ) : ℚ :=
  match probe with
  | .reading t => t
  | .parse_error => 45 + jitter
  | .no_output =>
      match
        (if use_remote_pi then
          match remote with
          | .error => none
          | .response status temperature =>
              if status = 200 then some (temperature.getD 0) else none
        else none) with
      | some t => t
      | none => 45 + jitter

/-! ### Command router: `process_voice_command` (src/app.py lines 371-465) -/

/-- Lowercasing as Python `str.lower()` restricted to the ASCII commands
the router receives. -/
def lower (s : String) : String :=
  ⟨s.data.map Char.toLower⟩

/-- Character-list prefix test. -/
def chars_pre : List Char → List Char → Bool
  | [], _ => true
  | _ :: _, [] => false
  | a :: as, b :: bs => a == b && chars_pre as bs

/-- Character-list substring test: the first list occurs contiguously in
the second. -/
def char_sub (needle : List Char) : List Char → Bool
  | [] => needle.isEmpty
  | c :: rest => chars_pre needle (c :: rest) || char_sub needle rest

/-- Python `str.strip()` whitespace. -/
def py_space (c : Char) : Bool :=
  c == ' ' || c == '\t' || c == '\n' || c == '\r' || c == '\x0b' || c == '\x0c'

/-- Python `str.strip()` on a character list. -/
def strip_spaces (l : List Char) : List Char :=
  ((l.dropWhile py_space).reverse.dropWhile py_space).reverse

/-- The router's normalisation `command_text.lower().strip()`. -/
def norm_text (s : String) : List Char :=
  strip_spaces (s.data.map Char.toLower)

/-- Python `needle in hay` substring containment on strings. -/
def contains_str (hay needle : String) : Bool :=
  char_sub needle.data hay.data

/-- The router's keyword test
`any(word in command_text for word in [...])`. -/
def any_kw (text : List Char) (kws : List String) : Bool :=
  kws.any (fun w => char_sub w.data text)

/-- Rounding `q * 10` to the nearest integer with ties to even — the
rounding Python applies when formatting with one decimal digit —
computed on the numerator and denominator so it evaluates by `decide`. -/
def round_tenths (q : ℚ) : ℤ :=
  let n := q.num * 10
  let d := (q.den : ℤ)
  let f := n.fdiv d
  let r := n - f * d
  if 2 * r < d then f
  else if d < 2 * r then f + 1
  else if f % 2 = 0 then f else f + 1

/-- Python `f"{x:.1f}"`: fixed-point formatting with one decimal digit. -/
def fmt1 (q : ℚ) : String :=
  let n := round_tenths q
  let m := n.natAbs
  (if n < 0 then "-" else "") ++ toString (m / 10) ++ "." ++ toString (m % 10)

/-- The aggregated state the router reads while answering: current
temperature (`get_cpu_temp()`), fan status string (`fan_status()`),
the `system_stats` counters (present, as at module initialisation), and
the `get_system_info()` strings. -/
structure VoiceSnapshot where
  temp : ℚ
  fan : String
  fan_cycles : ℕ
  alerts_triggered : ℕ
  email_alerts_sent : ℕ
  telegram_alerts_sent : ℕ
  max_temp : ℚ
  min_temp : ℚ
  memory_usage : String
  system_uptime : String
  cpu_load : String
  wifi_signal : String
  uptime_str : String
deriving DecidableEq, Repr

/-- Temperature category response (src/app.py lines 376-386). -/
def temp_response (TEMP_THRESHOLD TEMP_THRESHOLD_HIGH TEMP_CRITICAL : ℚ)
    (temp : ℚ) : String :=
  if TEMP_CRITICAL < temp then
    "Critical alert! CPU temperature is " ++ fmt1 temp ++
      " degrees Celsius. This is dangerously high!"
  else if TEMP_THRESHOLD_HIGH < temp then
    "Warning! CPU temperature is " ++ fmt1 temp ++
      " degrees Celsius. This is quite high."
  else if TEMP_THRESHOLD < temp then
    "CPU temperature is " ++ fmt1 temp ++
      " degrees Celsius. Temperature is warm but manageable."
  else
    "CPU temperature is " ++ fmt1 temp ++
      " degrees Celsius. Temperature is normal."

/-- Fan category response (src/app.py lines 389-398). -/
def fan_response (st : VoiceSnapshot) : String :=
  if st.fan = "ON" then
    "Fan is currently running. It has cycled " ++ toString st.fan_cycles ++ " times."
  else if st.fan = "OFF" then
    "Fan is currently off. It has cycled " ++ toString st.fan_cycles ++ " times total."
  else "Fan control is unavailable. GPIO not initialized."

/-- System status category response (src/app.py lines 401-410). -/
def system_response (st : VoiceSnapshot) : String :=
  "System status: CPU temperature " ++ fmt1 st.temp ++ " degrees, fan is " ++
    lower st.fan ++ ", " ++ toString st.alerts_triggered ++
    " alerts triggered, memory usage " ++ st.memory_usage ++
    ", system uptime " ++ st.system_uptime

/-- Alert statistics category response (src/app.py lines 413-421). -/
def alert_response (st : VoiceSnapshot) : String :=
  "Alert summary: " ++ toString st.alerts_triggered ++
    " total alerts triggered, " ++ toString st.email_alerts_sent ++
    " email notifications sent, " ++ toString st.telegram_alerts_sent ++
    " Telegram messages sent."

/-- Memory and performance category response (src/app.py lines 424-429). -/
def memory_response (st : VoiceSnapshot) : String :=
  "System performance: Memory usage is " ++ st.memory_usage ++
    ", CPU load is " ++ st.cpu_load ++ ", WiFi signal strength is " ++ st.wifi_signal

/-- Statistics category response (src/app.py lines 432-441). -/
def stats_response (st : VoiceSnapshot) : String :=
  "Statistics summary: Maximum temperature recorded " ++ fmt1 st.max_temp ++
    " degrees, minimum temperature " ++ fmt1 st.min_temp ++
    " degrees, system running for " ++ st.uptime_str

/-- Help category response (src/app.py lines 444-448). -/
def help_response : String :=
  "Available commands: Ask about temperature, fan status, system status, alerts, memory performance, statistics, or say generate report. You can also ask me to turn voice control on or off."

/-- Report category response (src/app.py lines 451-453). -/
def report_response : String :=
  "Generating system report. You can download the PDF report from the dashboard export section."

/-- Voice-control-off response (src/app.py lines 456-460). -/
def voice_off_response : String :=
  "Voice control disabled. You can re-enable it from the dashboard."

/-- Fallback response (src/app.py lines 463-465). -/
def fallback_response : String :=
  "I didn\x27t understand that command. Try asking about temperature, fan status, system status, or say help for available commands."

/-- Function `process_voice_command(command_text)` (src/app.py lines
371-465): lowercase and strip the text, then walk the keyword categories
in source order; the result is the response string together with the
`voice_enabled` flag (set to `false` only by the disable-voice
category). -/
def process_voice_command (TEMP_THRESHOLD TEMP_THRESHOLD_HIGH TEMP_CRITICAL : ℚ)
    (st : VoiceSnapshot) (voice_enabled : Bool) (command_text : String) :
    String × Bool :=
  let c := norm_text command_text
  if any_kw c ["temperature", "temp", "hot", "heat"] then
    (temp_response TEMP_THRESHOLD TEMP_THRESHOLD_HIGH TEMP_CRITICAL st.temp, voice_enabled)
  else if any_kw c ["fan", "cooling", "ventilation"] then
    (fan_response st, voice_enabled)
  else if any_kw c ["status", "system", "health", "overview"] then
    (system_response st, voice_enabled)
  else if any_kw c ["alert", "notification", "warning"] then
    (alert_response st, voice_enabled)
  else if any_kw c ["memory", "ram", "performance"] then
    (memory_response st, voice_enabled)
  else if any_kw c ["statistics", "stats", "summary"] then
    (stats_response st, voice_enabled)
  else if any_kw c ["help", "commands", "what can you do"] then
    (help_response, voice_enabled)
  else if any_kw c ["report", "generate", "export", "download"] then
    (report_response, voice_enabled)
  else if any_kw c ["voice control off", "stop listening", "disable voice"] then
    (voice_off_response, false)
  else (fallback_response, voice_enabled)

/-- Evaluation of an ordered list of (keyword set, handler) pairs, first
match wins — the router shape the specification describes. -/
def route_list : List (List String × (String × Bool)) → (String × Bool) → List Char →
    (String × Bool)
  | [], fallback, _ => fallback
  | (kws, handler) :: rest, fallback, c =>
      if any_kw c kws then handler else route_list rest fallback c

/-- Modelled from the specification's words: the router as an ordered
(keywords, handler) table in the fixed precedence order temperature →
fan/cooling → system/overview → alerts/notifications →
memory/performance → statistics → help → report/export →
disable-voice-control → fallback, matched case-insensitively, first
matching category wins. -/
def route_spec (TEMP_THRESHOLD TEMP_THRESHOLD_HIGH TEMP_CRITICAL : ℚ)
    (st : VoiceSnapshot) (voice_enabled : Bool) (command_text : String) :
    String × Bool :=
  route_list
    [(["temperature", "temp", "hot", "heat"],
        (temp_response TEMP_THRESHOLD TEMP_THRESHOLD_HIGH TEMP_CRITICAL st.temp,
          voice_enabled)),
      (["fan", "cooling", "ventilation"], (fan_response st, voice_enabled)),
      (["status", "system", "health", "overview"], (system_response st, voice_enabled)),
      (["alert", "notification", "warning"], (alert_response st, voice_enabled)),
      (["memory", "ram", "performance"], (memory_response st, voice_enabled)),
      (["statistics", "stats", "summary"], (stats_response st, voice_enabled)),
      (["help", "commands", "what can you do"], (help_response, voice_enabled)),
      (["report", "generate", "export", "download"], (report_response, voice_enabled)),
      (["voice control off", "stop listening", "disable voice"],
        (voice_off_response, false))]
    (fallback_response, voice_enabled)
    (norm_text command_text)

/-- The state the concrete C7 scenario reads: current temperature 85. -/
def hot_snapshot : VoiceSnapshot :=
  ⟨85, "ON", 3, 1, 1, 1, 85, 40, "50.0%", "1:00:00", "0.50", "-40", "0:10:00"⟩

/-! ### Lemmas and claim theorems -/

lemma control_fan_active (n h c : ℚ) (hnh : n < h) (hhc : h < c)
    (s : FanState) (t : ℚ) :
    (control_fan true n h c s t).active = decide (n < t) := by
  unfold control_fan
  by_cases h1 : c < t
  · have hnt : n < t := lt_trans (lt_trans hnh hhc) h1
    cases hs : s.active <;> simp [h1, hs, hnt]
  · by_cases h2 : h < t
    · have hnt : n < t := lt_trans hnh h2
      cases hs : s.active <;> simp [h1, h2, hs, hnt]
    · by_cases h3 : n < t
      · cases hs : s.active <;> simp [h1, h2, h3, hs]
      · cases hs : s.active <;> simp [h1, h2, h3, hs]

lemma control_fan_cycles (n h c : ℚ) (hnh : n < h) (hhc : h < c)
    (s : FanState) (t : ℚ) :
    (control_fan true n h c s t).cycles =
      s.cycles + (if s.active = false ∧ n < t then 1 else 0) := by
  unfold control_fan
  by_cases h1 : c < t
  · have hnt : n < t := lt_trans (lt_trans hnh hhc) h1
    cases hs : s.active <;> simp [h1, hs, hnt]
  · by_cases h2 : h < t
    · have hnt : n < t := lt_trans hnh h2
      cases hs : s.active <;> simp [h1, h2, hs, hnt]
    · by_cases h3 : n < t
      · cases hs : s.active <;> simp [h1, h2, h3, hs]
      · cases hs : s.active <;> simp [h1, h2, h3, hs]

lemma control_fan_foldl_cycles (n h c : ℚ) (hnh : n < h) (hhc : h < c)
    (ts : List ℚ) (s : FanState) :
    (ts.foldl (control_fan true n h c) s).cycles =
      s.cycles + off_on_edges n s.active ts := by
  induction ts generalizing s with
  | nil => simp [off_on_edges]
  | cons t ts ih =>
      have hact := control_fan_active n h c hnh hhc s t
      have hcyc := control_fan_cycles n h c hnh hhc s t
      simp only [List.foldl_cons, off_on_edges]
      rw [ih (control_fan true n h c s t), hact, hcyc]
      ring

lemma control_fan_foldl_last (n h c : ℚ) (hnh : n < h) (hhc : h < c)
    (ts : List ℚ) (t : ℚ) (s : FanState) :
    ((ts ++ [t]).foldl (control_fan true n h c) s).active = decide (n < t) := by
  rw [List.foldl_append]
  exact control_fan_active n h c hnh hhc _ t

/-- C1: with the driver available and thresholds validly ordered
`normal < high < critical`, after every `control_fan` call the fan is ON
iff the sample just processed had `temp > TEMP_THRESHOLD` (the high and
critical branches never change the on/off decision), `fan_cycles` grows
by one exactly on an OFF→ON step, and over any sample sequence starting
from the inactive state `fan_cycles` counts exactly the OFF→ON edges. -/
theorem C1_fan_on_iff_above_normal (n h c : ℚ) (hnh : n < h) (hhc : h < c) :
    (∀ (s : FanState) (t : ℚ),
        ((control_fan true n h c s t).active = true ↔ n < t) ∧
          (control_fan true n h c s t).cycles =
            s.cycles + (if s.active = false ∧ n < t then 1 else 0)) ∧
      (∀ (ts : List ℚ) (t : ℚ),
          ((ts ++ [t]).foldl (control_fan true n h c) ⟨false, 0⟩).active = true ↔ n < t) ∧
      (∀ ts : List ℚ,
          (ts.foldl (control_fan true n h c) ⟨false, 0⟩).cycles =
            off_on_edges n false ts) := by
  refine ⟨fun s t => ⟨?_, control_fan_cycles n h c hnh hhc s t⟩, fun ts t => ?_, fun ts => ?_⟩
  · rw [control_fan_active n h c hnh hhc s t]; simp
  · rw [control_fan_foldl_last n h c hnh hhc ts t]; simp
  · simpa using control_fan_foldl_cycles n h c hnh hhc ts ⟨false, 0⟩

/-- Witness for C1 at the default thresholds 60/70/80 and the sample
sequence [65, 50, 75, 85]: two OFF→ON edges, fan ends ON. -/
theorem C1_witness :
    (60 : ℚ) < 70 ∧ (70 : ℚ) < 80 ∧
      (([65, 50, 75] ++ [85]).foldl (control_fan true 60 70 80) ⟨false, 0⟩).active = true ∧
      ([(65 : ℚ), 50, 75, 85].foldl (control_fan true 60 70 80) ⟨false, 0⟩).cycles =
        off_on_edges 60 false [65, 50, 75, 85] :=
  ⟨by norm_num, by norm_num,
    ((C1_fan_on_iff_above_normal 60 70 80 (by norm_num) (by norm_num)).2.1 [65, 50, 75] 85).mpr
      (by norm_num),
    (C1_fan_on_iff_above_normal 60 70 80 (by norm_num) (by norm_num)).2.2 [65, 50, 75, 85]⟩

lemma deque_append_drop {α : Type} (maxlen : ℕ) (L : List α) (x : α) :
    deque_append maxlen (L.drop (L.length - maxlen)) x =
      (L ++ [x]).drop ((L.length + 1) - maxlen) := by
  unfold deque_append
  rw [← List.drop_append_of_le_length (by omega : L.length - maxlen ≤ L.length)]
  rw [List.drop_drop]
  congr 1
  simp only [List.length_append, List.length_drop, List.length_singleton]
  omega

lemma deque_append_foldl {α : Type} (maxlen : ℕ) (ts : List α) :
    ts.foldl (deque_append maxlen) [] = ts.drop (ts.length - maxlen) := by
  suffices H : ∀ (ts L : List α),
      ts.foldl (deque_append maxlen) (L.drop (L.length - maxlen)) =
        (L ++ ts).drop ((L ++ ts).length - maxlen) by
    simpa using H ts []
  intro ts
  induction ts with
  | nil => intro L; simp
  | cons t ts ih =>
      intro L
      simp only [List.foldl_cons]
      rw [deque_append_drop maxlen L t]
      have h1 : (L.length + 1) - maxlen = (L ++ [t]).length - maxlen := by simp
      rw [h1, ih (L ++ [t])]
      simp

/-- Length after a fold of appends never exceeds the capacity. -/
lemma deque_append_foldl_length {α : Type} (maxlen : ℕ) (ts : List α) :
    (ts.foldl (deque_append maxlen) []).length ≤ maxlen := by
  rw [deque_append_foldl]
  simp [List.length_drop]
  omega

/-- C2 counterexample: the code has no minimum of 1.  With
`data_retention_hours = 1` and `log_interval = 10000` the deque maxlen is
`int(3600 / 10000) = 0`, while the claimed formula gives `max 1 _ = 1`. -/
theorem C2_counterexample :
    temp_history_capacity 1 10000 = 0 ∧ spec_capacity 1 10000 = 1 ∧ (0 : ℕ) ≠ 1 := by
  have hf : ⌊((1 : ℕ) * 3600 : ℚ) / (10000 : ℕ)⌋ = 0 := by
    rw [Int.floor_eq_zero_iff]
    constructor
    · push_cast; norm_num
    · push_cast; norm_num
  have hr : round (((1 : ℕ) * 3600 : ℚ) / (10000 : ℕ)) = 0 := by
    rw [round_eq]
    rw [show (((1 : ℕ) * 3600 : ℚ) / (10000 : ℕ) + 1 / 2) = 43 / 50 by push_cast; norm_num]
    rw [Int.floor_eq_zero_iff]
    constructor <;> norm_num
  refine ⟨?_, ?_, by decide⟩
  · unfold temp_history_capacity
    rw [hf]
    rfl
  · unfold spec_capacity
    rw [hr]
    rfl

/-- C2 amended: the capacity is the truncated quotient with no minimum
(it can be 0), and for every sequence of appends starting empty the store
holds exactly the most recent `min (length, capacity)` entries in
insertion order — a suffix of the appended sequence, so the length never
exceeds the capacity and eviction is FIFO, oldest first, no reordering. -/
theorem C2_history_bounded_fifo (data_retention_hours log_interval : ℕ)
    (ts : List Reading) :
    (ts.foldl (deque_append (temp_history_capacity data_retention_hours log_interval)) []).length
        ≤ temp_history_capacity data_retention_hours log_interval ∧
      ts.foldl (deque_append (temp_history_capacity data_retention_hours log_interval)) [] =
        ts.drop (ts.length - temp_history_capacity data_retention_hours log_interval) :=
  ⟨deque_append_foldl_length _ ts, deque_append_foldl _ ts⟩

lemma update_extrema_foldl (ts : List ℚ) (p : ℚ × ℚ) :
    ts.foldl update_extrema p = (ts.foldl max p.1, ts.foldl min p.2) := by
  induction ts generalizing p with
  | nil => simp
  | cons t ts ih =>
      simp only [List.foldl_cons]
      rw [ih]
      congr 1
      · simp only [update_extrema]
        rcases lt_or_ge p.1 t with h | h
        · simp [h, max_eq_right h.le]
        · simp [not_lt.mpr h, max_eq_left h]
      · simp only [update_extrema]
        rcases lt_or_ge t p.2 with h | h
        · simp [h, min_eq_right h.le]
        · simp [not_lt.mpr h, min_eq_left h]

/-- C5 counterexample: after processing the single reading −5 since the
initial state, `max_temp` is 0, but the maximum temperature over the
readings processed is −5. -/
theorem C5_counterexample :
    (List.foldl update_extrema initial_extrema [(-5 : ℚ)]).1 = 0 ∧
      [(-5 : ℚ)].foldl max (-5) = -5 ∧ (0 : ℚ) ≠ -5 := by
  refine ⟨?_, by simp, by norm_num⟩
  show (update_extrema initial_extrema (-5)).1 = 0
  norm_num [update_extrema, initial_extrema]

/-- C5 amended: after any sequence of processed samples since the last
reset, `max_temp` is the maximum of the initial sentinel 0 and all
readings, and `min_temp` the minimum of the sentinel 100 and all
readings (so they are the true extrema only when the readings reach 0
and 100 respectively; they do survive history eviction, being tracked
outside the bounded history). -/
theorem C5_running_extrema (ts : List ℚ) :
    ts.foldl update_extrema initial_extrema = (ts.foldl max 0, ts.foldl min 100) :=
  update_extrema_foldl ts initial_extrema

lemma dispatch_alert_attempted (now : ℤ) (lvl : Level) (env : ChannelEnv)
    (cd : Cooldown) (stats : Stats) :
    (dispatch_alert now lvl env cd stats).attempted = some lvl := by
  simp only [dispatch_alert]
  split <;> rfl

lemma check_attempted (TH TC : ℚ) (now : ℤ) (temp : ℚ) (env : ChannelEnv)
    (cd : Cooldown) (stats : Stats) (lvl : Level) :
    (check_and_send_alerts TH TC now temp env cd stats).attempted = some lvl ↔
      classify TH TC temp = some lvl ∧ cooldown_elapsed cd lvl now := by
  unfold check_and_send_alerts
  cases hc : classify TH TC temp with
  | none =>
      dsimp only
      simp
  | some l =>
      dsimp only
      cases hg : Cooldown.get cd l with
      | none =>
          dsimp only
          rw [dispatch_alert_attempted]
          constructor
          · rintro h
            refine ⟨h, ?_⟩
            intro last hlast
            rw [Option.some_inj] at h; subst h
            rw [hg] at hlast; exact absurd hlast (by simp)
          · rintro ⟨h, _⟩
            exact h
      | some last =>
          dsimp only
          rcases lt_or_ge (now - last) ((l.cooldown_minutes : ℤ) * 60) with hlt | hge
          · rw [if_pos hlt]
            constructor
            · intro h; exact absurd h (by simp)
            · rintro ⟨h, helapsed⟩
              rw [Option.some_inj] at h; subst h
              exact absurd (helapsed last hg) (by omega)
          · rw [if_neg (not_lt.mpr hge)]
            rw [dispatch_alert_attempted]
            constructor
            · intro h
              rw [Option.some_inj] at h; subst h
              exact ⟨rfl, fun last2 hlast2 => by
                rw [hg] at hlast2
                rw [Option.some_inj] at hlast2; subst hlast2; omega⟩
            · rintro ⟨h, _⟩
              exact h

lemma dispatch_alert_critical_of_high (now : ℤ) (env : ChannelEnv)
    (cd : Cooldown) (stats : Stats) :
    (dispatch_alert now .high env cd stats).cooldown.critical = cd.critical := by
  simp only [dispatch_alert]
  split <;> rfl

/-- C3: the send block of `check_and_send_alerts` runs iff the strict
classification assigns a level and that level's cooldown has elapsed
since its last recorded (successful) dispatch; with thresholds
high = 70, critical = 80: a sample at 85 dispatches CRITICAL, the same
sample 2 minutes later is suppressed, 6 minutes later it re-dispatches;
and a 72-degree sample classifies as HIGH and never touches the
CRITICAL cooldown entry. -/
theorem C3_alert_severity_and_cooldown :
    (∀ (TH TC : ℚ) (now : ℤ) (temp : ℚ) (env : ChannelEnv) (cd : Cooldown)
        (stats : Stats) (lvl : Level),
        (check_and_send_alerts TH TC now temp env cd stats).attempted = some lvl ↔
          classify TH TC temp = some lvl ∧ cooldown_elapsed cd lvl now) ∧
      ((check_and_send_alerts 70 80 0 85 ⟨true, true, true, true, true, some 200⟩
            ⟨none, none⟩ (initial_stats 0)).attempted = some .critical ∧
        (check_and_send_alerts 70 80 0 85 ⟨true, true, true, true, true, some 200⟩
            ⟨none, none⟩ (initial_stats 0)).alert_sent = true ∧
        (check_and_send_alerts 70 80 0 85 ⟨true, true, true, true, true, some 200⟩
            ⟨none, none⟩ (initial_stats 0)).cooldown.critical = some 0 ∧
        (check_and_send_alerts 70 80 120 85 ⟨true, true, true, true, true, some 200⟩
            ⟨none, some 0⟩ (initial_stats 0)).attempted = none ∧
        (check_and_send_alerts 70 80 120 85 ⟨true, true, true, true, true, some 200⟩
            ⟨none, some 0⟩ (initial_stats 0)).alert_sent = false ∧
        (check_and_send_alerts 70 80 360 85 ⟨true, true, true, true, true, some 200⟩
            ⟨none, some 0⟩ (initial_stats 0)).attempted = some .critical ∧
        (check_and_send_alerts 70 80 360 85 ⟨true, true, true, true, true, some 200⟩
            ⟨none, some 0⟩ (initial_stats 0)).alert_sent = true) ∧
      (∀ (now : ℤ) (env : ChannelEnv) (cd : Cooldown) (stats : Stats),
        classify 70 80 72 = some .high ∧
          (check_and_send_alerts 70 80 now 72 env cd stats).cooldown.critical =
            cd.critical) := by
  refine ⟨check_attempted, by decide, fun now env cd stats => ⟨by decide, ?_⟩⟩
  unfold check_and_send_alerts
  rw [show classify 70 80 72 = some .high by decide]
  dsimp only
  cases hg : Cooldown.get cd .high with
  | none =>
      dsimp only
      exact dispatch_alert_critical_of_high now env cd stats
  | some last =>
      dsimp only
      rcases lt_or_ge (now - last) ((Level.high.cooldown_minutes : ℤ) * 60) with hlt | hge
      · rw [if_pos hlt]
      · rw [if_neg (not_lt.mpr hge)]
        exact dispatch_alert_critical_of_high now env cd stats

lemma send_email_alert_fields (env : ChannelEnv) (s : Stats) :
    ((send_email_alert env s).1).alerts_triggered = s.alerts_triggered ∧
      ((send_email_alert env s).1).last_alert = s.last_alert ∧
      ((send_email_alert env s).1).telegram_alerts_sent = s.telegram_alerts_sent := by
  unfold send_email_alert
  split
  · exact ⟨rfl, rfl, rfl⟩
  · split
    · exact ⟨rfl, rfl, rfl⟩
    · split <;> exact ⟨rfl, rfl, rfl⟩

lemma send_telegram_alert_fields (env : ChannelEnv) (s : Stats) :
    ((send_telegram_alert env s).1).alerts_triggered = s.alerts_triggered ∧
      ((send_telegram_alert env s).1).last_alert = s.last_alert := by
  unfold send_telegram_alert
  split
  · exact ⟨rfl, rfl⟩
  · split
    · exact ⟨rfl, rfl⟩
    · split
      · exact ⟨rfl, rfl⟩
      · split
        · split <;> exact ⟨rfl, rfl⟩
        · exact ⟨rfl, rfl⟩

lemma send_telegram_alert_snd_congr (env : ChannelEnv) (s1 s2 : Stats)
    (h : s1.telegram_alerts_sent = s2.telegram_alerts_sent) :
    (send_telegram_alert env s1).2 = (send_telegram_alert env s2).2 := by
  unfold send_telegram_alert
  rw [h]
  repeat' split
  all_goals rfl

lemma send_telegram_after_email (env : ChannelEnv) (stats : Stats) :
    (send_telegram_alert env (send_email_alert env stats).1).2 =
      (send_telegram_alert env stats).2 :=
  send_telegram_alert_snd_congr env _ _ (send_email_alert_fields env stats).2.2

lemma check_result_of_attempted (TH TC : ℚ) (now : ℤ) (temp : ℚ) (env : ChannelEnv)
    (cd : Cooldown) (stats : Stats) (lvl : Level)
    (h : (check_and_send_alerts TH TC now temp env cd stats).attempted = some lvl) :
    check_and_send_alerts TH TC now temp env cd stats =
      dispatch_alert now lvl env cd stats := by
  unfold check_and_send_alerts at h ⊢
  cases hc : classify TH TC temp with
  | none =>
      rw [hc] at h
      dsimp only at h
      exact absurd h (by simp)
  | some l =>
      rw [hc] at h
      dsimp only at h ⊢
      cases hg : Cooldown.get cd l with
      | none =>
          rw [hg] at h
          dsimp only at h
          rw [dispatch_alert_attempted] at h
          rw [Option.some_inj] at h; subst h; rfl
      | some last =>
          rw [hg] at h
          dsimp only at h
          rcases lt_or_ge (now - last) ((l.cooldown_minutes : ℤ) * 60) with hlt | hge
          · rw [if_pos hlt] at h; exact absurd h (by simp)
          · rw [if_neg (not_lt.mpr hge)] at h
            rw [dispatch_alert_attempted] at h
            rw [Option.some_inj] at h; subst h
            dsimp only
            rw [if_neg (not_lt.mpr hge)]

lemma dispatch_alert_spec (now : ℤ) (lvl : Level) (env : ChannelEnv)
    (cd : Cooldown) (stats : Stats) :
    (dispatch_alert now lvl env cd stats).email_sent = (send_email_alert env stats).2 ∧
      (dispatch_alert now lvl env cd stats).telegram_sent =
        (send_telegram_alert env stats).2 ∧
      (dispatch_alert now lvl env cd stats).alert_sent =
        ((send_email_alert env stats).2 || (send_telegram_alert env stats).2) ∧
      (dispatch_alert now lvl env cd stats).alert_logged =
        (dispatch_alert now lvl env cd stats).alert_sent ∧
      ((dispatch_alert now lvl env cd stats).alert_sent = true →
        (dispatch_alert now lvl env cd stats).cooldown = cd.set lvl now ∧
          (dispatch_alert now lvl env cd stats).stats.alerts_triggered =
            stats.alerts_triggered + 1 ∧
          (dispatch_alert now lvl env cd stats).stats.last_alert = some (some now)) ∧
      ((dispatch_alert now lvl env cd stats).alert_sent = false →
        (dispatch_alert now lvl env cd stats).cooldown = cd ∧
          (dispatch_alert now lvl env cd stats).stats.alerts_triggered =
            stats.alerts_triggered ∧
          (dispatch_alert now lvl env cd stats).stats.last_alert = stats.last_alert) := by
  have hefields := send_email_alert_fields env stats
  have htfields := send_telegram_alert_fields env (send_email_alert env stats).1
  have hcongr := send_telegram_after_email env stats
  simp only [dispatch_alert]
  split
  case isTrue h =>
    refine ⟨rfl, hcongr, by rw [← hcongr]; exact h.symm ▸ h.symm ▸ rfl, rfl, ?_, ?_⟩
    · intro _
      refine ⟨rfl, ?_, rfl⟩
      show (send_telegram_alert env (send_email_alert env stats).1).1.alerts_triggered + 1 = _
      rw [htfields.1, hefields.1]
    · intro habs; exact absurd habs (by simp)
  case isFalse h =>
    refine ⟨rfl, hcongr, ?_, rfl, ?_, ?_⟩
    · rw [← hcongr]
      simp only [Bool.or_eq_true] at h
      push_neg at h
      rw [Bool.eq_false_iff.mpr h.1, Bool.eq_false_iff.mpr h.2]
      rfl
    · intro habs; exact absurd habs (by simp)
    · intro _
      refine ⟨rfl, ?_, ?_⟩
      · show (send_telegram_alert env (send_email_alert env stats).1).1.alerts_triggered = _
        rw [htfields.1, hefields.1]
      · show (send_telegram_alert env (send_email_alert env stats).1).1.last_alert = _
        rw [htfields.2, hefields.2.1]

/-- C4: the two channels are attempted independently — the recorded
telegram outcome is what `send_telegram_alert` yields on the pre-email
statistics, so an always-failing email channel cannot mask a telegram
success — and on a dispatched alert event the cooldown entry, the single
`alerts_triggered` increment, `last_alert` and the ALERT log entry are
updated iff at least one channel succeeded; if every channel fails all
of them are left unchanged. -/
theorem C4_channel_fanout_and_success_recording :
    (∀ (env : ChannelEnv) (stats : Stats),
        (send_telegram_alert env (send_email_alert env stats).1).2 =
          (send_telegram_alert env stats).2) ∧
      ∀ (TH TC : ℚ) (now : ℤ) (temp : ℚ) (env : ChannelEnv) (cd : Cooldown)
        (stats : Stats) (lvl : Level),
        (check_and_send_alerts TH TC now temp env cd stats).attempted = some lvl →
          (check_and_send_alerts TH TC now temp env cd stats).email_sent =
              (send_email_alert env stats).2 ∧
            (check_and_send_alerts TH TC now temp env cd stats).telegram_sent =
              (send_telegram_alert env stats).2 ∧
            (check_and_send_alerts TH TC now temp env cd stats).alert_sent =
              ((send_email_alert env stats).2 || (send_telegram_alert env stats).2) ∧
            (check_and_send_alerts TH TC now temp env cd stats).alert_logged =
              (check_and_send_alerts TH TC now temp env cd stats).alert_sent ∧
            ((check_and_send_alerts TH TC now temp env cd stats).alert_sent = true →
              (check_and_send_alerts TH TC now temp env cd stats).cooldown =
                  cd.set lvl now ∧
                (check_and_send_alerts TH TC now temp env cd stats).stats.alerts_triggered =
                  stats.alerts_triggered + 1 ∧
                (check_and_send_alerts TH TC now temp env cd stats).stats.last_alert =
                  some (some now)) ∧
            ((check_and_send_alerts TH TC now temp env cd stats).alert_sent = false →
              (check_and_send_alerts TH TC now temp env cd stats).cooldown = cd ∧
                (check_and_send_alerts TH TC now temp env cd stats).stats.alerts_triggered =
                  stats.alerts_triggered ∧
                (check_and_send_alerts TH TC now temp env cd stats).stats.last_alert =
                  stats.last_alert) := by
  refine ⟨send_telegram_after_email, ?_⟩
  intro TH TC now temp env cd stats lvl h
  rw [check_result_of_attempted TH TC now temp env cd stats lvl h]
  exact dispatch_alert_spec now lvl env cd stats

/-- Witness for C4: thresholds 70/80, a 85-degree sample, email channel
always failing (`email_send_ok = false`), telegram succeeding: telegram
success is recorded and `alerts_triggered` goes up by exactly one. -/
theorem C4_witness :
    (check_and_send_alerts 70 80 0 85 ⟨true, true, false, true, true, some 200⟩
        ⟨none, none⟩ (initial_stats 0)).attempted = some .critical ∧
      (check_and_send_alerts 70 80 0 85 ⟨true, true, false, true, true, some 200⟩
          ⟨none, none⟩ (initial_stats 0)).telegram_sent =
        (send_telegram_alert ⟨true, true, false, true, true, some 200⟩
            (initial_stats 0)).2 ∧
      (check_and_send_alerts 70 80 0 85 ⟨true, true, false, true, true, some 200⟩
          ⟨none, none⟩ (initial_stats 0)).stats.alerts_triggered =
        (initial_stats 0).alerts_triggered + 1 :=
  ⟨by decide,
    ((C4_channel_fanout_and_success_recording).2 70 80 0 85
        ⟨true, true, false, true, true, some 200⟩ ⟨none, none⟩ (initial_stats 0)
        .critical (by decide)).2.1,
    (((C4_channel_fanout_and_success_recording).2 70 80 0 85
        ⟨true, true, false, true, true, some 200⟩ ⟨none, none⟩ (initial_stats 0)
        .critical (by decide)).2.2.2.2.1 (by decide)).2.1⟩

lemma send_email_alert_reset (env : ChannelEnv) (now : ℤ) :
    send_email_alert env (reset_stats now) = (reset_stats now, false) := by
  unfold send_email_alert reset_stats
  split
  · rfl
  · split
    · rfl
    · rfl

lemma send_telegram_alert_reset (env : ChannelEnv) (now : ℤ) :
    send_telegram_alert env (reset_stats now) = (reset_stats now, false) := by
  unfold send_telegram_alert reset_stats
  split
  · rfl
  · split
    · rfl
    · split
      · rfl
      · split
        · rfl
        · rfl

lemma dispatch_alert_reset (now2 : ℤ) (lvl : Level) (env : ChannelEnv)
    (cd : Cooldown) (now : ℤ) :
    dispatch_alert now2 lvl env cd (reset_stats now) =
      ⟨some lvl, false, cd, reset_stats now, false, false, false⟩ := by
  simp [dispatch_alert, send_email_alert_reset, send_telegram_alert_reset]

/-- C10: after `/api/reset-stats` the statistics map lacks
`email_alerts_sent`, `telegram_alerts_sent` and `last_alert`; every
subsequent channel send returns `False` (the counter increment raises
`KeyError`, caught at the channel boundary), so no later alert event can
record a channel success, update the cooldown map, or change the
statistics. -/
theorem C10_reset_disables_alert_recording :
    ∀ now : ℤ,
      (reset_stats now).email_alerts_sent = none ∧
        (reset_stats now).telegram_alerts_sent = none ∧
        (reset_stats now).last_alert = none ∧
        (∀ env : ChannelEnv, send_email_alert env (reset_stats now) =
          (reset_stats now, false)) ∧
        (∀ env : ChannelEnv, send_telegram_alert env (reset_stats now) =
          (reset_stats now, false)) ∧
        ∀ (TH TC : ℚ) (now2 : ℤ) (temp : ℚ) (env : ChannelEnv) (cd : Cooldown),
          (check_and_send_alerts TH TC now2 temp env cd (reset_stats now)).alert_sent =
              false ∧
            (check_and_send_alerts TH TC now2 temp env cd (reset_stats now)).cooldown =
              cd ∧
            (check_and_send_alerts TH TC now2 temp env cd (reset_stats now)).stats =
              reset_stats now ∧
            (check_and_send_alerts TH TC now2 temp env cd (reset_stats now)).alert_logged =
              false := by
  intro now
  refine ⟨rfl, rfl, rfl, fun env => send_email_alert_reset env now,
    fun env => send_telegram_alert_reset env now, ?_⟩
  intro TH TC now2 temp env cd
  unfold check_and_send_alerts
  cases classify TH TC temp with
  | none => exact ⟨rfl, rfl, rfl, rfl⟩
  | some lvl =>
      dsimp only
      cases Cooldown.get cd lvl with
      | none => rw [dispatch_alert_reset]; exact ⟨rfl, rfl, rfl, rfl⟩
      | some last =>
          dsimp only
          rcases lt_or_ge (now2 - last) ((lvl.cooldown_minutes : ℤ) * 60) with hlt | hge
          · rw [if_pos hlt]; exact ⟨rfl, rfl, rfl, rfl⟩
          · rw [if_neg (not_lt.mpr hge), dispatch_alert_reset]
            exact ⟨rfl, rfl, rfl, rfl⟩

/-- C8: a configuration update is applied only when the new thresholds
satisfy `normal < high < critical` strictly; a build failure from a
non-numeric field, or a threshold-order violation, is rejected with its
specific error message and leaves the configuration unchanged. -/
theorem C8_config_validation (c : Config) (f : Form) (save_ok : Bool) :
    ((configuration c f save_ok).1 ≠ c →
        (configuration c f save_ok).1.temp_threshold <
            (configuration c f save_ok).1.temp_threshold_high ∧
          (configuration c f save_ok).1.temp_threshold_high <
            (configuration c f save_ok).1.temp_critical) ∧
      (build_new_config c f = none →
        (configuration c f save_ok).1 = c ∧
          (configuration c f save_ok).2 = "Error: Invalid input values") ∧
      ∀ nc, build_new_config c f = some nc →
        ¬(nc.temp_threshold < nc.temp_threshold_high ∧
            nc.temp_threshold_high < nc.temp_critical) →
          (configuration c f save_ok).1 = c ∧
            ((configuration c f save_ok).2 =
                "Error: High threshold must be greater than normal threshold" ∨
              (configuration c f save_ok).2 =
                "Error: Critical threshold must be greater than high threshold") := by
  unfold configuration
  cases hb : build_new_config c f with
  | none =>
      dsimp only
      exact ⟨fun hne => absurd rfl hne, fun _ => ⟨rfl, rfl⟩,
        fun nc hnc => absurd hnc (by simp)⟩
  | some nc =>
      dsimp only
      by_cases h1 : nc.temp_threshold_high ≤ nc.temp_threshold
      · rw [if_pos h1]
        refine ⟨fun hne => absurd rfl hne, ?_, ?_⟩
        · intro hnone; exact absurd hnone (by simp)
        · intro nc2 hnc2 _
          exact ⟨rfl, Or.inl rfl⟩
      · rw [if_neg h1]
        by_cases h2 : nc.temp_critical ≤ nc.temp_threshold_high
        · rw [if_pos h2]
          refine ⟨fun hne => absurd rfl hne, ?_, ?_⟩
          · intro hnone; exact absurd hnone (by simp)
          · intro nc2 hnc2 _
            exact ⟨rfl, Or.inr rfl⟩
        · rw [if_neg h2]
          have horder : nc.temp_threshold < nc.temp_threshold_high ∧
              nc.temp_threshold_high < nc.temp_critical :=
            ⟨lt_of_not_le h1, lt_of_not_le h2⟩
          by_cases h3 : nc.fan_pin < 1 ∨ 40 < nc.fan_pin
          · rw [if_pos h3]
            refine ⟨fun hne => absurd rfl hne, ?_, ?_⟩
            · intro hnone; exact absurd hnone (by simp)
            · intro nc2 hnc2 hbad
              rw [Option.some_inj] at hnc2; subst hnc2
              exact absurd horder hbad
          · rw [if_neg h3]
            by_cases h4 : save_ok
            · rw [if_pos h4]
              refine ⟨fun _ => horder, ?_, ?_⟩
              · intro hnone; exact absurd hnone (by simp)
              · intro nc2 hnc2 hbad
                rw [Option.some_inj] at hnc2; subst hnc2
                exact absurd horder hbad
            · rw [if_neg h4]
              refine ⟨fun hne => absurd rfl hne, ?_, ?_⟩
              · intro hnone; exact absurd hnone (by simp)
              · intro nc2 hnc2 hbad
                rw [Option.some_inj] at hnc2; subst hnc2
                exact absurd horder hbad

/-- Witness for C8: submitting `temp_threshold = 75` against the default
configuration (high = 70) is rejected with the threshold-order message
and the configuration is unchanged. -/
theorem C8_witness :
    (configuration DEFAULT_CONFIG bad_threshold_form true).1 = DEFAULT_CONFIG ∧
      ((configuration DEFAULT_CONFIG bad_threshold_form true).2 =
          "Error: High threshold must be greater than normal threshold" ∨
        (configuration DEFAULT_CONFIG bad_threshold_form true).2 =
          "Error: Critical threshold must be greater than high threshold") :=
  (C8_config_validation DEFAULT_CONFIG bad_threshold_form true).2.2
    { DEFAULT_CONFIG with temp_threshold := 75 } (by rfl)
    (by intro hbad; exact absurd hbad.1 (by norm_num [DEFAULT_CONFIG]))

/-- C6 counterexample: applying a configuration whose retention maps to
capacity 5 to a store holding 10 entries leaves all 10 entries (and the
original maxlen 2880) in place — the store is not resized to the 5 most
recent. -/
theorem C6_counterexample :
    (configuration_post ⟨DEFAULT_CONFIG, 2880, ten_readings⟩ resize_form true).1.config.data_retention_hours = 1 ∧
      temp_history_capacity 1 720 = 5 ∧
      ((configuration_post ⟨DEFAULT_CONFIG, 2880, ten_readings⟩ resize_form true).1.temp_history).length = 10 ∧
      (configuration_post ⟨DEFAULT_CONFIG, 2880, ten_readings⟩ resize_form true).1.history_maxlen = 2880 ∧
      (10 : ℕ) ≠ 5 := by
  refine ⟨rfl, ?_, rfl, rfl, by decide⟩
  unfold temp_history_capacity
  rw [show ((1 : ℕ) * 3600 : ℚ) / ((720 : ℕ) : ℚ) = 5 by push_cast; norm_num]
  rw [show ⌊(5 : ℚ)⌋ = 5 from Int.floor_intCast 5]
  rfl

/-- C6 amended: a configuration change never resizes the history store —
the deque and the `maxlen` fixed at module load are untouched by the
`configuration` route, whatever retention the update carries; the new
retention takes effect only when the process restarts and the deque is
recreated. -/
theorem C6_config_change_never_resizes (st : AppState) (f : Form) (save_ok : Bool) :
    (configuration_post st f save_ok).1.temp_history = st.temp_history ∧
      (configuration_post st f save_ok).1.history_maxlen = st.history_maxlen :=
  ⟨rfl, rfl⟩

/-- C9 counterexample: a decoded 200 response whose JSON lacks the
`temperature` key is a malformed response, yet `get_cpu_temp` returns
the `data.get('temperature', 0)` default 0 instead of the synthetic
fallback — 0 is outside the fallback band [35, 70]. -/
theorem C9_counterexample :
    get_cpu_temp .no_output true (.response 200 none) 0 = 0 ∧
      ¬((35 : ℚ) ≤ 0 ∧ (0 : ℚ) ≤ 70) ∧
      ∀ j : ℚ, -10 ≤ j → j ≤ 25 → (0 : ℚ) ≠ 45 + j := by
  refine ⟨rfl, by norm_num, ?_⟩
  intro j h1 _ heq
  have : (35 : ℚ) ≤ 0 := by linarith
  linarith

/-- C9 amended: `get_cpu_temp` is total (every exception path is caught)
and falls back to the synthetic value `45 + jitter ∈ [35, 70]` when the
local parse fails, or when the local probe yields nothing and the remote
is disabled, errors out, or answers with a non-200 status; but a decoded
200 response is returned as-is, with a missing `temperature` key
defaulting to 0, and a successful local reading is returned as-is. -/
theorem C9_fallback_totality (j : ℚ) (h1 : -10 ≤ j) (h2 : j ≤ 25) :
    (∀ (u : Bool) (r : RemoteOutcome), get_cpu_temp .parse_error u r j = 45 + j) ∧
      (∀ r : RemoteOutcome, get_cpu_temp .no_output false r j = 45 + j) ∧
      get_cpu_temp .no_output true .error j = 45 + j ∧
      (∀ (s : ℕ) (t : Option ℚ), s ≠ 200 →
        get_cpu_temp .no_output true (.response s t) j = 45 + j) ∧
      ((35 : ℚ) ≤ 45 + j ∧ 45 + j ≤ (70 : ℚ)) ∧
      (∀ t : Option ℚ, get_cpu_temp .no_output true (.response 200 t) j = t.getD 0) ∧
      (∀ (q : ℚ) (u : Bool) (r : RemoteOutcome), get_cpu_temp (.reading q) u r j = q) := by
  refine ⟨fun u r => rfl, fun r => rfl, rfl, ?_, ⟨by linarith, by linarith⟩,
    fun t => ?_, fun q u r => rfl⟩
  · intro s t hs
    simp [get_cpu_temp, hs]
  · simp [get_cpu_temp]

/-- Witness for C9 at jitter 0: failure paths return the synthetic 45,
inside the band; a decoded 200 response with `temperature: 55` returns
55. -/
theorem C9_witness :
    (-10 : ℚ) ≤ 0 ∧ (0 : ℚ) ≤ 25 ∧
      get_cpu_temp .no_output true .error 0 = 45 ∧
      get_cpu_temp .no_output true (.response 200 (some 55)) 0 = 55 :=
  ⟨by norm_num, by norm_num,
    by rw [(C9_fallback_totality 0 (by norm_num) (by norm_num)).2.2.1]; norm_num,
    by rw [(C9_fallback_totality 0 (by norm_num) (by norm_num)).2.2.2.2.2.1 (some 55)]; rfl⟩

/-- C7: the router equals the specification's ordered
first-matching-category table for every input (so the precedence order
is exactly temperature, fan, system, alerts, memory, statistics, help,
report, disable-voice, fallback, matched case-insensitively on
substrings), and routing "what's the temperature" with temperature 85
against critical threshold 80 yields a response containing "Critical"
and "85". -/
theorem C7_router_precedence_and_example :
    (∀ (T TH TC : ℚ) (st : VoiceSnapshot) (voice_enabled : Bool)
        (command_text : String),
        process_voice_command T TH TC st voice_enabled command_text =
          route_spec T TH TC st voice_enabled command_text) ∧
      contains_str
          (process_voice_command 60 70 80 hot_snapshot true
              "what\x27s the temperature").1 "Critical" = true ∧
      contains_str
          (process_voice_command 60 70 80 hot_snapshot true
              "what\x27s the temperature").1 "85" = true := by
  refine ⟨fun T TH TC st voice_enabled command_text => ?_, by decide, by decide⟩
  simp only [process_voice_command, route_spec, route_list]

end OxxMonitor

